import Mathlib

/-!
A shallow embedding of the `ptrplus` crate (src/lib.rs): the three
conversion traits `AsPtr`, `IntoRaw` and `FromRaw`, and their
implementations for references, slices, raw pointers, `NonNull`,
`Cell`, `RefCell`, `Box`, `Rc`, `Arc`, `CString` and `Option`.

Model of pointers: a raw pointer of element type `α` is `Ptr α`,
either `null` or a non-null address paired with the block of `α`
values stored behind that address. Carrying the pointee block inside
the pointer lets ownership transfer be expressed without an explicit
heap: `into_raw` packages the owned payload behind the returned
pointer and `from_raw` takes it back from there.

Model of undefined behavior: `from_raw` is `unsafe` in the source,
with unchecked preconditions. Here every `from_raw` returns
`Option Self`: `some x` is the defined result `x`, and `none` marks a
violated unchecked precondition, i.e. undefined behavior. Operations
that are documented as always safe return `some` on every input.
-/

namespace Ptrplus

/-- A raw `*mut α` (or `*const α`) pointer: null, or a non-null address
together with the block of memory it points to. -/
inductive Ptr (α : Type) where
  | null : Ptr α
  | valid (addr : Nat) (block : List α) : Ptr α
deriving DecidableEq

/-- Models `<*mut α>::is_null()`. -/
def Ptr.isNull {α : Type} : Ptr α → Bool
  | Ptr.null => true
  | Ptr.valid _ _ => false

/-- Models `trait AsPtr { type Raw; fn as_ptr(&self) -> *const Raw; }`. -/
class AsPtr (α : Type) (Raw : outParam Type) where
  as_ptr : α → Ptr Raw

/-- Models `trait IntoRaw { type Raw; fn into_raw(self) -> *mut Raw; }`. -/
class IntoRaw (α : Type) (Raw : outParam Type) where
  into_raw : α → Ptr Raw

/-- Models `trait FromRaw<T> { unsafe fn from_raw(raw: *mut T) -> Self; }`.
The result `none` models undefined behavior from a violated unchecked
precondition; `some x` is the defined result `x`. -/
class FromRaw (α : Type) (U : Type) where
  from_raw : Ptr U → Option α

/-- Models a reference `&'a α`: the address it points at and the referent. -/
structure Ref (α : Type) where
  addr : Nat
  val : α
deriving DecidableEq

/-- Models a slice `[α]`: the address of the first element and the elements. -/
structure Slice (α : Type) where
  addr : Nat
  elems : List α
deriving DecidableEq

/-- Models `core::ptr::NonNull<α>`: a raw pointer that is not null. -/
def NonNull (α : Type) : Type := { p : Ptr α // p.isNull = false }

/-- Models `*const α` where the source distinguishes it from `*mut α`
(the `impl FromRaw<T> for *const T`); `Ptr α` itself plays `*mut α`. -/
structure ConstPtr (α : Type) where
  ptr : Ptr α
deriving DecidableEq

/-- Models `core::cell::Cell<α>`: the address of the storage slot and its value. -/
structure Cell (α : Type) where
  addr : Nat
  val : α
deriving DecidableEq

/-- Models `core::cell::RefCell<α>`: the address of the storage slot and its value. -/
structure RefCell (α : Type) where
  addr : Nat
  val : α
deriving DecidableEq

/-- Models `alloc::boxed::Box<α>`: the address of the heap allocation and
the uniquely owned value. -/
structure Box (α : Type) where
  addr : Nat
  val : α
deriving DecidableEq

/-- Models `alloc::rc::Rc<α>`: the address of the shared allocation and the
payload reachable through `Rc::into_raw` / `Rc::from_raw`. -/
structure Rc (α : Type) where
  addr : Nat
  val : α
deriving DecidableEq

/-- Models `alloc::sync::Arc<α>`: the address of the shared allocation and
the payload reachable through `Arc::into_raw` / `Arc::from_raw`. -/
structure Arc (α : Type) where
  addr : Nat
  val : α
deriving DecidableEq

/-- Models `std::os::raw::c_char`. -/
abbrev CChar : Type := Int

/-- Models `std::ffi::CString`: the address and contents of the owned
null-terminated buffer. -/
structure CString where
  addr : Nat
  bytes : List CChar
deriving DecidableEq

/-- Models `impl<'a, T> AsPtr for &'a T` (`*self as *const T`): a pointer
to the referent, at the reference's address. -/
instance {α : Type} : AsPtr (Ref α) α where
  as_ptr r := Ptr.valid r.addr [r.val]

/-- Models `impl<T> AsPtr for [T]` (`<[T]>::as_ptr`): a pointer to the
first element; non-null even for an empty slice. -/
instance {α : Type} : AsPtr (Slice α) α where
  as_ptr s := Ptr.valid s.addr s.elems

/-- Models `impl<T> AsPtr for NonNull<T>` (`NonNull::as_ptr`): unwraps to
the underlying raw pointer. -/
instance {α : Type} : AsPtr (NonNull α) α where
  as_ptr n := n.val

/-- Models `impl<T> AsPtr for *const T`: identity. -/
instance {α : Type} : AsPtr (Ptr α) α where
  as_ptr p := p

/-- Models `asptr_wrapper!(Cell)` (`Cell::as_ptr`): a pointer to the slot. -/
instance {α : Type} : AsPtr (Cell α) α where
  as_ptr c := Ptr.valid c.addr [c.val]

/-- Models `asptr_wrapper!(RefCell)` (`RefCell::as_ptr`): a pointer to the slot. -/
instance {α : Type} : AsPtr (RefCell α) α where
  as_ptr c := Ptr.valid c.addr [c.val]

/-- Models `asptr_wrapper!(Rc)` (`Rc::as_ptr`): a pointer to the payload. -/
instance {α : Type} : AsPtr (Rc α) α where
  as_ptr r := Ptr.valid r.addr [r.val]

/-- Models `asptr_wrapper!(Arc)` (`Arc::as_ptr`): a pointer to the payload. -/
instance {α : Type} : AsPtr (Arc α) α where
  as_ptr a := Ptr.valid a.addr [a.val]

/-- Models `impl<T> AsPtr for Box<T>` (`self.deref().as_ptr()`): a pointer
to the heap payload. -/
instance {α : Type} : AsPtr (Box α) α where
  as_ptr b := Ptr.valid b.addr [b.val]

/-- Models `impl AsPtr for CString` (`CStr::as_ptr`): the address of the
first byte of the buffer. -/
instance : AsPtr CString CChar where
  as_ptr s := Ptr.valid s.addr s.bytes

/-- Models `impl<T: AsPtr> AsPtr for Option<T>`: null for `None`, else
delegation to the inner implementation. -/
instance {α R : Type} [AsPtr α R] : AsPtr (Option α) R where
  as_ptr o :=
    match o with
    | some v => AsPtr.as_ptr v
    | none => Ptr.null

/-- Models `impl<T> IntoRaw for *mut T`: identity. -/
instance {α : Type} : IntoRaw (Ptr α) α where
  into_raw p := p

/-- Models `impl<T> IntoRaw for NonNull<T>` (`self.as_ptr()`): unwraps to
the underlying raw pointer. -/
instance {α : Type} : IntoRaw (NonNull α) α where
  into_raw n := n.val

/-- Models `owned_ptr_wrapper!(Box)`: `Box::into_raw` hands over the heap
block holding the owned value, at the box's address. -/
instance {α : Type} : IntoRaw (Box α) α where
  into_raw b := Ptr.valid b.addr [b.val]

/-- Models `owned_ptr_wrapper!(Rc)`: `Rc::into_raw` hands over a pointer
to the payload. -/
instance {α : Type} : IntoRaw (Rc α) α where
  into_raw r := Ptr.valid r.addr [r.val]

/-- Models `owned_ptr_wrapper!(Arc)`: `Arc::into_raw` hands over a pointer
to the payload. -/
instance {α : Type} : IntoRaw (Arc α) α where
  into_raw a := Ptr.valid a.addr [a.val]

/-- Models `impl IntoRaw for CString` (`CString::into_raw`): hands over
the owned buffer. -/
instance : IntoRaw CString CChar where
  into_raw s := Ptr.valid s.addr s.bytes

/-- Models `impl<T: IntoRaw> IntoRaw for Option<T>`: null for `None`, else
delegation to the inner implementation. -/
instance {α R : Type} [IntoRaw α R] : IntoRaw (Option α) R where
  into_raw o :=
    match o with
    | some v => IntoRaw.into_raw v
    | none => Ptr.null

/-- Models `impl<T> FromRaw<T> for *mut T`: identity; the source marks
this implementation always safe, so there is no `none` case. -/
instance {α : Type} : FromRaw (Ptr α) α where
  from_raw raw := some raw

/-- Models `impl<T> FromRaw<T> for *const T`: identity; always safe. -/
instance {α : Type} : FromRaw (ConstPtr α) α where
  from_raw raw := some (ConstPtr.mk raw)

/-- Models `impl<T> FromRaw<T> for NonNull<T>` (`NonNull::new_unchecked`):
a null input violates the unchecked precondition (undefined behavior);
a non-null input is wrapped unchanged. -/
instance {α : Type} : FromRaw (NonNull α) α where
  from_raw raw :=
    match raw with
    | Ptr.null => none
    | Ptr.valid a b => some ⟨Ptr.valid a b, rfl⟩

/-- Models `owned_ptr_wrapper!(Box)`: `Box::from_raw` is defined exactly on
a pointer of the shape `Box::into_raw` produces (a non-null singleton
block); anything else violates the unchecked precondition. -/
instance {α : Type} : FromRaw (Box α) α where
  from_raw raw :=
    match raw with
    | Ptr.valid a [v] => some (Box.mk a v)
    | _ => none

/-- Models `owned_ptr_wrapper!(Rc)`: `Rc::from_raw`, defined exactly on a
pointer of the shape `Rc::into_raw` produces. -/
instance {α : Type} : FromRaw (Rc α) α where
  from_raw raw :=
    match raw with
    | Ptr.valid a [v] => some (Rc.mk a v)
    | _ => none

/-- Models `owned_ptr_wrapper!(Arc)`: `Arc::from_raw`, defined exactly on
a pointer of the shape `Arc::into_raw` produces. -/
instance {α : Type} : FromRaw (Arc α) α where
  from_raw raw :=
    match raw with
    | Ptr.valid a [v] => some (Arc.mk a v)
    | _ => none

/-- Models `impl FromRaw<c_char> for CString` (`CString::from_raw`): takes
back ownership of the buffer behind a non-null pointer; a null pointer
violates the unchecked precondition. -/
instance : FromRaw CString CChar where
  from_raw raw :=
    match raw with
    | Ptr.null => none
    | Ptr.valid a bs => some (CString.mk a bs)

/-- Models `impl<T: FromRaw<U>, U> FromRaw<U> for Option<T>`: the source's
`raw.is_null()` test, written as a match on the `Ptr` constructor; on a
null input the result is `None` with no call to the inner `from_raw`, and
on a non-null input the inner reconstruction is delegated to (so inner
undefined behavior propagates). -/
instance {α U : Type} [FromRaw α U] : FromRaw (Option α) U where
  from_raw raw :=
    match raw with
    | Ptr.null => some none
    | Ptr.valid a b => (FromRaw.from_raw (Ptr.valid a b) : Option α).map some

/-- Claim C1, counterexample: the optional round trip is not the identity
for every inner type implementing both contracts. For the raw-pointer
inner type, whose encoding of a present value can itself be null, the
value `Some(null)` encodes to the null pointer and decodes to `None`. -/
theorem option_roundtrip_counterexample :
    (FromRaw.from_raw (IntoRaw.into_raw (some (Ptr.null : Ptr Unit))) :
      Option (Option (Ptr Unit))) ≠ some (some (Ptr.null : Ptr Unit)) := by
  decide

/-- Claim C1, amended: for every inner type implementing both contracts,
`None` round-trips to `None` via the null pointer exactly; and `Some v`
round-trips to `Some v` whenever the inner encoding of `v` is non-null
and the inner round trip itself returns `v`. -/
theorem option_roundtrip_amended (α R : Type) [IntoRaw α R] [FromRaw α R] :
    (FromRaw.from_raw (IntoRaw.into_raw (none : Option α)) : Option (Option α)) = some none ∧
    ∀ v : α, (IntoRaw.into_raw v : Ptr R).isNull = false →
      (FromRaw.from_raw (IntoRaw.into_raw v) : Option α) = some v →
      (FromRaw.from_raw (IntoRaw.into_raw (some v)) : Option (Option α)) = some (some v) := by
  constructor
  · rfl
  · intro v h1 h2
    show (FromRaw.from_raw (IntoRaw.into_raw v) : Option (Option α)) = some (some v)
    cases hp : (IntoRaw.into_raw v : Ptr R) with
    | null =>
      rw [hp] at h1
      simp [Ptr.isNull] at h1
    | valid a b =>
      show (FromRaw.from_raw (Ptr.valid a b) : Option α).map some = some (some v)
      rw [← hp, h2]
      rfl

/-- Claim C1, witness for the amended round trip at a boxed value. -/
theorem option_roundtrip_amended_witness :
    (FromRaw.from_raw (IntoRaw.into_raw (some (Box.mk 7 (5 : Nat)))) :
      Option (Option (Box Nat))) = some (some (Box.mk 7 5)) :=
  (option_roundtrip_amended (Box Nat) Nat).2 (Box.mk 7 5) rfl rfl

/-- Claim C2: for each owning wrapper (`Box`, `Rc`, `Arc`, `CString`),
reconstructing from the pointer just produced by consuming a value is
defined behavior and yields the original value. -/
theorem owned_wrapper_roundtrip :
    (∀ (α : Type) (b : Box α), (FromRaw.from_raw (IntoRaw.into_raw b) : Option (Box α)) = some b) ∧
    (∀ (α : Type) (r : Rc α), (FromRaw.from_raw (IntoRaw.into_raw r) : Option (Rc α)) = some r) ∧
    (∀ (α : Type) (a : Arc α), (FromRaw.from_raw (IntoRaw.into_raw a) : Option (Arc α)) = some a) ∧
    (∀ s : CString, (FromRaw.from_raw (IntoRaw.into_raw s) : Option CString) = some s) := by
  refine ⟨?_, ?_, ?_, ?_⟩ <;> intros <;> rfl

/-- Claim C3: for every inner type, `Option::from_raw` on the null pointer
is `None`, uniformly in the inner `FromRaw` instance (so the inner
reconstruction is never consulted there); on any non-null pointer it is
exactly the inner reconstruction wrapped in `Some`, undefined behavior
propagating. -/
theorem option_from_raw_null_delegate (α U : Type) [FromRaw α U] :
    (FromRaw.from_raw (Ptr.null : Ptr U) : Option (Option α)) = some none ∧
    ∀ p : Ptr U, p.isNull = false →
      (FromRaw.from_raw p : Option (Option α)) = (FromRaw.from_raw p : Option α).map some := by
  constructor
  · rfl
  · intro p h
    cases p with
    | null => simp [Ptr.isNull] at h
    | valid a b => rfl

/-- Claim C3, witness at a concrete non-null pointer and the `Box Nat`
inner type. -/
theorem option_from_raw_null_delegate_witness :
    (FromRaw.from_raw (Ptr.valid 3 [(5 : Nat)]) : Option (Option (Box Nat))) =
      some (some (Box.mk 3 5)) :=
  ((option_from_raw_null_delegate (Box Nat) Nat).2 (Ptr.valid 3 [5]) rfl).trans rfl

/-- Claim C4: `Option::into_raw` maps `None` to the null pointer for every
inner type; and for `Box`, `Rc`, `Arc` and `CString` inner values,
`Option::into_raw` of a present value is never null. -/
theorem option_into_raw_null_spec :
    (∀ (α R : Type) [IntoRaw α R], IntoRaw.into_raw (none : Option α) = (Ptr.null : Ptr R)) ∧
    (∀ (α : Type) (b : Box α), (IntoRaw.into_raw (some b) : Ptr α).isNull = false) ∧
    (∀ (α : Type) (r : Rc α), (IntoRaw.into_raw (some r) : Ptr α).isNull = false) ∧
    (∀ (α : Type) (a : Arc α), (IntoRaw.into_raw (some a) : Ptr α).isNull = false) ∧
    (∀ s : CString, (IntoRaw.into_raw (some s) : Ptr CChar).isNull = false) := by
  refine ⟨?_, ?_, ?_, ?_, ?_⟩ <;> intros <;> rfl

/-- Claim C5: for every inner type implementing `AsPtr`, `Option::as_ptr`
is null on `None` and agrees with the inner `as_ptr` on `Some v`. -/
theorem option_as_ptr_spec (α R : Type) [AsPtr α R] :
    (AsPtr.as_ptr (none : Option α) : Ptr R) = Ptr.null ∧
    ∀ v : α, (AsPtr.as_ptr (some v) : Ptr R) = AsPtr.as_ptr v :=
  ⟨rfl, fun _ => rfl⟩

/-- Claim C6: raw pointers convert by identity, with no precondition:
`into_raw` on a raw mutable pointer returns the pointer unchanged, and
`from_raw` at the raw mutable and raw const target types is defined on
every pointer, null included, returning it unchanged. -/
theorem raw_ptr_identity_spec (α : Type) (p : Ptr α) :
    IntoRaw.into_raw p = p ∧
    (FromRaw.from_raw p : Option (Ptr α)) = some p ∧
    (FromRaw.from_raw p : Option (ConstPtr α)) = some (ConstPtr.mk p) :=
  ⟨rfl, rfl, rfl⟩

/-- Claim C7: `NonNull::from_raw` is undefined behavior (modelled as
`none`) exactly on the null input, and on a non-null input returns the
wrapper holding exactly the input pointer; the `Option NonNull`
composition tests for null first, so it is defined on every input:
`None` on null, and `Some` of the wrapped input pointer otherwise. -/
theorem nonnull_from_raw_spec (α : Type) :
    (FromRaw.from_raw (Ptr.null : Ptr α) : Option (NonNull α)) = none ∧
    (∀ (p : Ptr α) (h : p.isNull = false),
      (FromRaw.from_raw p : Option (NonNull α)) = some ⟨p, h⟩) ∧
    (FromRaw.from_raw (Ptr.null : Ptr α) : Option (Option (NonNull α))) = some none ∧
    (∀ (p : Ptr α) (h : p.isNull = false),
      (FromRaw.from_raw p : Option (Option (NonNull α))) = some (some ⟨p, h⟩)) := by
  refine ⟨rfl, ?_, rfl, ?_⟩
  · intro p h
    cases p with
    | null => simp [Ptr.isNull] at h
    | valid a b => rfl
  · intro p h
    cases p with
    | null => simp [Ptr.isNull] at h
    | valid a b => rfl

/-- Claim C7, witness at a concrete non-null pointer. -/
theorem nonnull_from_raw_spec_witness :
    (FromRaw.from_raw (Ptr.valid 1 [(9 : Nat)]) : Option (NonNull Nat)) =
      some ⟨Ptr.valid 1 [9], rfl⟩ :=
  (nonnull_from_raw_spec Nat).2.1 (Ptr.valid 1 [9]) rfl

/-- Claim C8: `as_ptr` is a total pure function for every implementing
type (in this embedding it is a Lean function, so it is defined on every
input and has no effects); for a reference it returns the pointer at the
reference's address. -/
theorem as_ptr_total_and_ref_addr :
    (∀ (α R : Type) [AsPtr α R] (v : α), ∃ q : Ptr R, AsPtr.as_ptr v = q) ∧
    (∀ (α : Type) (r : Ref α), AsPtr.as_ptr r = Ptr.valid r.addr [r.val]) := by
  constructor
  · intro α R inst v
    exact ⟨AsPtr.as_ptr v, rfl⟩
  · intro α r
    rfl

/-- Claim C9: for every `NonNull` value, `as_ptr` and `into_raw` both
unwrap to the underlying raw pointer, which is non-null, so the returned
pointer is never null. -/
theorem nonnull_as_ptr_into_raw_spec (α : Type) (n : NonNull α) :
    AsPtr.as_ptr n = n.val ∧ IntoRaw.into_raw n = n.val ∧
    (AsPtr.as_ptr n : Ptr α).isNull = false ∧
    (IntoRaw.into_raw n : Ptr α).isNull = false :=
  ⟨rfl, rfl, n.property, n.property⟩

/-- Claim C10: nested optional values collapse under the null-sentinel
encoding: for every inner type, `Option (Option T)` sends both `None` and
`Some None` to the null pointer, decodes null back to `None` only, and so
the round trip of `Some None` returns `None`, not `Some None`. -/
theorem nested_option_collapse (α R : Type) [IntoRaw α R] [FromRaw α R] :
    IntoRaw.into_raw (none : Option (Option α)) = (Ptr.null : Ptr R) ∧
    IntoRaw.into_raw (some (none : Option α)) = (Ptr.null : Ptr R) ∧
    (FromRaw.from_raw (Ptr.null : Ptr R) : Option (Option (Option α))) = some none ∧
    (FromRaw.from_raw (IntoRaw.into_raw (some (none : Option α))) :
      Option (Option (Option α))) = some none ∧
    (FromRaw.from_raw (IntoRaw.into_raw (some (none : Option α))) :
      Option (Option (Option α))) ≠ some (some none) := by
  refine ⟨rfl, rfl, rfl, rfl, ?_⟩
  show (some (none : Option (Option α))) ≠ some (some none)
  simp

end Ptrplus
